import Mathlib

set_option maxHeartbeats 1000000

/-
Shallow embedding of the code-redemption store of src/app.py (a Streamlit
file/text sharing app backed by an SQLite table named files and a flat
uploads directory).  Pure functions of the source become Lean functions;
the SQLite table plus the uploads directory become an explicit State value
threaded through each operation; filesystem failures that the source
swallows are modelled by a Boolean failure oracle; Unix timestamps are Int.
-/

namespace FileShare

/-- Kind of a catalog row: the type column of the files table holds the
string file or the string text (src/app.py, init_db, line 42). -/
inductive FType where
  | file
  | text
deriving DecidableEq

/-- One row of the files table (src/app.py, init_db, lines 31-44).
downloaded and one_time are INTEGER 0/1 columns, modelled as Bool;
created_at and expires_at are Unix timestamps, modelled as Int.  A text
row stores NULL in saved_name and a file row stores NULL in text_content;
both NULLs are modelled as the empty string, which no code path ever
compares against the other kind. -/
structure Entry where
  id : Nat
  code : String
  saved_name : String
  original_name : String
  text_content : String
  created_at : Int
  expires_at : Int
  downloaded : Bool
  one_time : Bool
  ftype : FType
deriving DecidableEq

/-- Whole-store state: the rows of the files table in rowid order, the
uploads directory as an association list from file name to byte content,
and the next AUTOINCREMENT id. -/
structure State where
  files : List Entry
  blobs : List (String × List Nat)
  next_id : Nat
deriving DecidableEq

/-- The state right after init_db on a fresh database: no rows, an empty
uploads directory, first AUTOINCREMENT id 1. -/
def emptyState : State := ⟨[], [], 1⟩

/-- Python str.strip() with no argument: remove leading and trailing
whitespace. -/
def pyStrip (s : String) : String :=
  String.mk
    (((s.toList.dropWhile Char.isWhitespace).reverse.dropWhile
        Char.isWhitespace).reverse)

/-- Unlink the blob stored under key k; unlinking an absent key is a
no-op (the source guards with exists() or passes missing_ok). -/
def removeBlob (k : String) (bs : List (String × List Nat)) :
    List (String × List Nat) :=
  bs.filter (fun p => decide (p.fst ≠ k))

/-- Write a blob, overwriting any existing file of the same name
(open with mode wb, line 92). -/
def putBlob (k : String) (v : List Nat) (bs : List (String × List Nat)) :
    List (String × List Nat) :=
  (k, v) :: removeBlob k bs

/-- Read a blob from the uploads directory; none when the file is absent. -/
def lookupBlob (bs : List (String × List Nat)) (k : String) : Option (List Nat) :=
  (bs.find? (fun p => decide (p.fst = k))).map Prod.snd

/-- cleanup_expired (src/app.py, lines 57-71): select the rows with
expires_at <= now; for each file-kind row try to unlink its blob, any
failure being swallowed by the bare except (the fails oracle says which
unlink attempts fail); finally delete every row with expires_at <= now
and commit. -/
def cleanup_expired (fails : String → Bool) (now : Int) (s : State) : State :=
  let expired := s.files.filter (fun e => decide (e.expires_at ≤ now))
  let blobs1 := expired.foldl
    (fun bs e =>
      if e.ftype = FType.file ∧ fails e.saved_name = false then
        removeBlob e.saved_name bs
      else bs)
    s.blobs
  { files := s.files.filter (fun e => decide (¬ e.expires_at ≤ now)),
    blobs := blobs1,
    next_id := s.next_id }

/-- The collision probe of save_file and save_text (lines 83 and 106):
SELECT 1 FROM files WHERE code equals the candidate.  It consults every
row of the table, live or expired, with no liveness filter. -/
def codeUsed (s : State) (c : String) : Bool :=
  s.files.any (fun e => decide (e.code = c))

/-- The retry loop of save_file and save_text (lines 82-86 and 105-109):
keep drawing generate_code outputs, modelled as the stream gen of the
generator's successive values, until one is unused.  The Python loop is
unbounded; the fuel argument bounds the observation, with none meaning
the loop has not terminated within fuel draws. -/
def pickCodeAux (gen : Nat → String) (s : State) : Nat → Nat → Option String
  | 0, _ => none
  | fuel + 1, i =>
    if codeUsed s (gen i) then pickCodeAux gen s fuel (i + 1)
    else some (gen i)

def pickCode (gen : Nat → String) (fuel : Nat) (s : State) : Option String :=
  pickCodeAux gen s fuel 0

/-- MAX_FILE_SIZE_MB of 50, converted to bytes as in line 77. -/
def MAX_FILE_SIZE_BYTES : Nat := 50 * 1024 * 1024

inductive SaveError where
  | sizeExceeded
  | emptyText
  | noFreshCode
deriving DecidableEq

/-- The internal blob name of line 90: timestamp, random token (the
token_hex(8) value, passed in as tok) and the original file name, joined
by underscores. -/
def savedNameOf (now : Int) (tok : String) (fileName : String) : String :=
  toString now ++ "_" ++ tok ++ "_" ++ fileName

/-- The row inserted by save_file (lines 95-98). -/
def mkFileEntry (s : State) (now : Int) (fileName : String) (tok : String)
    (expiry_seconds : Int) (one_time : Bool) (code : String) : Entry :=
  ⟨s.next_id, code, savedNameOf now tok fileName, fileName, "",
    now, now + expiry_seconds, false, one_time, FType.file⟩

/-- save_file (src/app.py, lines 73-100): size check first, raising
before any storage mutation; then the code retry loop; then the blob
write; then the row insert.  Returns the code and expiry on success. -/
def save_file (gen : Nat → String) (fuel : Nat) (now : Int) (fileName : String)
    (content : List Nat) (tok : String) (expiry_seconds : Int) (one_time : Bool)
    (s : State) : Except SaveError (String × Int × State) :=
  if MAX_FILE_SIZE_BYTES < content.length then Except.error SaveError.sizeExceeded
  else
    match pickCode gen fuel s with
    | none => Except.error SaveError.noFreshCode
    | some code =>
      Except.ok (code, now + expiry_seconds,
        ⟨s.files ++ [mkFileEntry s now fileName tok expiry_seconds one_time code],
          putBlob (savedNameOf now tok fileName) content s.blobs,
          s.next_id + 1⟩)

/-- The row inserted by save_text (lines 112-115); saved_name and
original_name are NULL. -/
def mkTextEntry (s : State) (now : Int) (text : String)
    (expiry_seconds : Int) (one_time : Bool) (code : String) : Entry :=
  ⟨s.next_id, code, "", "", text, now, now + expiry_seconds,
    false, one_time, FType.text⟩

/-- save_text (src/app.py, lines 102-117): code retry loop then row
insert.  There is no size, emptiness or expiry validation inside
save_text. -/
def save_text (gen : Nat → String) (fuel : Nat) (now : Int) (text : String)
    (expiry_seconds : Int) (one_time : Bool) (s : State) :
    Except SaveError (String × Int × State) :=
  match pickCode gen fuel s with
  | none => Except.error SaveError.noFreshCode
  | some code =>
    Except.ok (code, now + expiry_seconds,
      ⟨s.files ++ [mkTextEntry s now text expiry_seconds one_time code],
        s.blobs, s.next_id + 1⟩)

/-- The Upload Text tab handler (lines 230-236): text that is blank after
strip is rejected before save_text is called, so no storage mutation
happens for empty text. -/
def uploadTextTab (gen : Nat → String) (fuel : Nat) (now : Int) (text : String)
    (expiry_seconds : Int) (one_time : Bool) (s : State) :
    Except SaveError (String × Int × State) :=
  if pyStrip text = "" then Except.error SaveError.emptyText
  else save_text gen fuel now text expiry_seconds one_time s

/-- get_record_by_code (lines 119-122): SELECT with WHERE code equals the
query.  SQLite compares TEXT under the default BINARY collation, hence an
exact, case-sensitive match; fetchone returns the first matching row. -/
def get_record_by_code (s : State) (code : String) : Option Entry :=
  s.files.find? (fun e => decide (e.code = code))

/-- The downloaded flag update applied by mark_downloaded_and_maybe_delete. -/
def setDl (e : Entry) : Entry := { e with downloaded := true }

/-- mark_downloaded_and_maybe_delete (lines 124-135): set downloaded to 1
on the row with the given id, then, when one_time, best-effort unlink the
blob (file kind only) and delete the row. -/
def mark_downloaded_and_maybe_delete (record_id : Nat) (saved_name : String)
    (one_time : Bool) (ftype : FType) (s : State) : State :=
  let files1 := s.files.map (fun e => if e.id = record_id then setDl e else e)
  if one_time then
    let blobs1 :=
      if ftype = FType.file then removeBlob saved_name s.blobs else s.blobs
    ⟨files1.filter (fun e => decide (e.id ≠ record_id)), blobs1, s.next_id⟩
  else
    ⟨files1, s.blobs, s.next_id⟩

/-- Outcome of one press of Fetch and Download (lines 249-280).  Each
failing constructor corresponds to a distinct st.error message in the
source: emptyCode to Please enter a valid code, invalidOrExpired to
Invalid or expired code, codeExpired to Code expired, alreadyDownloaded
to Already downloaded (one-time), fileNotFound to File not found.
textShownThenError models the text branch faithfully: st.text_area
renders the stored text (line 277) and then line 278 raises NameError,
because the file-name f-string references the global variable named code,
which is only ever assigned inside the two upload button handlers and so
is undefined during a download rerun; the exception aborts the branch
before the success message and before mark_downloaded_and_maybe_delete
(line 280) can run. -/
inductive FetchResult where
  | emptyCode
  | invalidOrExpired
  | codeExpired
  | alreadyDownloaded
  | fileNotFound
  | fileReady (data : List Nat) (original_name : String)
  | textShownThenError (text : String)
deriving DecidableEq

/-- The Fetch and Download handler (lines 249-280): empty-input check,
cleanup_expired, lookup by the stripped code, expiry and one-time checks,
then either the file payload followed by mark_downloaded_and_maybe_delete,
or the text payload, whose branch dies in the NameError described on
FetchResult before any consumption side effect. -/
def fetchDownload (fails : String → Bool) (now : Int) (code_input : String)
    (s : State) : FetchResult × State :=
  if pyStrip code_input = "" then (FetchResult.emptyCode, s)
  else
    let s1 := cleanup_expired fails now s
    match get_record_by_code s1 (pyStrip code_input) with
    | none => (FetchResult.invalidOrExpired, s1)
    | some r =>
      if r.expires_at ≤ now then (FetchResult.codeExpired, s1)
      else if r.one_time ∧ r.downloaded then (FetchResult.alreadyDownloaded, s1)
      else
        match r.ftype with
        | FType.file =>
          match lookupBlob s1.blobs r.saved_name with
          | none => (FetchResult.fileNotFound, s1)
          | some data =>
            (FetchResult.fileReady data r.original_name,
              mark_downloaded_and_maybe_delete r.id r.saved_name r.one_time
                FType.file s1)
        | FType.text => (FetchResult.textShownThenError r.text_content, s1)

/-- delete_file (lines 148-161), the admin deletion: look up the row by
id, unlink its blob when file kind, then delete the row. -/
def delete_file (file_id : Nat) (s : State) : Bool × State :=
  match s.files.find? (fun e => decide (e.id = file_id)) with
  | none => (false, s)
  | some e =>
    let blobs1 :=
      if e.ftype = FType.file then removeBlob e.saved_name s.blobs else s.blobs
    (true, ⟨s.files.filter (fun x => decide (x.id ≠ file_id)), blobs1, s.next_id⟩)

/-- One user-visible operation against the store, for reasoning about
arbitrary operation sequences. -/
inductive Op where
  | opSaveFile (gen : Nat → String) (fuel : Nat) (now : Int) (fileName : String)
      (content : List Nat) (tok : String) (expiry_seconds : Int) (one_time : Bool)
  | opSaveText (gen : Nat → String) (fuel : Nat) (now : Int) (text : String)
      (expiry_seconds : Int) (one_time : Bool)
  | opCleanup (fails : String → Bool) (now : Int)
  | opFetch (fails : String → Bool) (now : Int) (code_input : String)
  | opAdminDelete (file_id : Nat)

/-- Effect of one operation on the store; a failed save leaves the state
unchanged (the exception propagates to the UI before any mutation). -/
def applyOp (s : State) : Op → State
  | Op.opSaveFile gen fuel now fn content tok expS ot =>
    match save_file gen fuel now fn content tok expS ot s with
    | Except.ok (_, _, s1) => s1
    | Except.error _ => s
  | Op.opSaveText gen fuel now text expS ot =>
    match save_text gen fuel now text expS ot s with
    | Except.ok (_, _, s1) => s1
    | Except.error _ => s
  | Op.opCleanup fails now => cleanup_expired fails now s
  | Op.opFetch fails now ci => (fetchDownload fails now ci s).snd
  | Op.opAdminDelete fid => (delete_file fid s).snd

/-- The store state after an operation sequence starting from the freshly
initialised empty table (init_db on a new database). -/
def runOps (ops : List Op) : State :=
  ops.foldl applyOp emptyState

/-- Repeated redemptions of one code at the given sequence of instants. -/
def runFetches (fails : String → Bool) (code_input : String) :
    List Int → State → List FetchResult × State
  | [], s => ([], s)
  | t :: ts, s =>
    let p := fetchDownload fails t code_input s
    let q := runFetches fails code_input ts p.snd
    (p.fst :: q.fst, q.snd)

/-- No two rows of the files table carry the same code (the code TEXT
UNIQUE column constraint of line 34). -/
def wfCodes (s : State) : Prop :=
  (s.files.map Entry.code).Nodup

/-- True exactly on the outcomes rendered through st.error, the failed
redemptions. -/
def isFailureResult : FetchResult → Bool
  | FetchResult.emptyCode => true
  | FetchResult.invalidOrExpired => true
  | FetchResult.codeExpired => true
  | FetchResult.alreadyDownloaded => true
  | FetchResult.fileNotFound => true
  | FetchResult.fileReady _ _ => false
  | FetchResult.textShownThenError _ => false

/-- The payload a successful redemption of the given row surfaces. -/
def expectedResult (er : Entry) (content : List Nat) : FetchResult :=
  match er.ftype with
  | FType.file => FetchResult.fileReady content er.original_name
  | FType.text => FetchResult.textShownThenError er.text_content

/-- The row as it stands after one successful redemption of it: a file
row gets downloaded set by mark_downloaded_and_maybe_delete; a text row
is untouched because the NameError fires first. -/
def afterFetch (er : Entry) : Entry :=
  match er.ftype with
  | FType.file => setDl er
  | FType.text => er

/-- The facts about one non-one-time uploaded row that every later
cleanup and redemption step preserves: the row is present, it is the
only row bearing its code, and for file kind it is the only row naming
its blob and that blob holds the uploaded bytes. -/
def RowInv (er : Entry) (content : List Nat) (s : State) : Prop :=
  er ∈ s.files ∧
  (∀ x ∈ s.files, x.code = er.code → x = er) ∧
  (er.ftype = FType.file →
    (∀ x ∈ s.files, x.saved_name = er.saved_name → x = er) ∧
    lookupBlob s.blobs er.saved_name = some content)

/-- Failure oracle under which no filesystem operation fails. -/
def fz : String → Bool := fun _ => false

/-- A generator stream that always draws the same code. -/
def genA : Nat → String := fun _ => "AAAAAAAA"

/-- A generator stream whose first draw collides with sExpiredRow and
whose later draws are fresh. -/
def genB : Nat → String := fun i => if i = 0 then "AAAAAAAA" else "BBBBBBBB"

/-- A store holding one already-expired one-time text row. -/
def expiredEntryA : Entry :=
  ⟨1, "AAAAAAAA", "", "", "old", 0, 5, false, true, FType.text⟩

def sExpiredRow : State := ⟨[expiredEntryA], [], 2⟩

/-- A store holding one live file row whose backing blob is absent from
the uploads directory. -/
def eNoBlob : Entry :=
  ⟨1, "AAAA1111", "missing.bin", "a.bin", "", 0, 100, false, false, FType.file⟩

def liveNoBlobState : State := ⟨[eNoBlob], [], 2⟩

/-- A store holding one live text row whose code has mixed-case letters. -/
def eMixed : Entry :=
  ⟨1, "Ab12Cd34", "", "", "hi", 0, 100, false, false, FType.text⟩

def mixedCaseState : State := ⟨[eMixed], [], 2⟩

/-- A store holding one live, already-downloaded one-time text row. -/
def eConsumed : Entry :=
  ⟨1, "CCCCCCCC", "", "", "hi", 0, 100, true, true, FType.text⟩

def consumedState : State := ⟨[eConsumed], [], 2⟩

/-- The store right after save_text of hello with ttl 60 and one_time
true on an empty store, codes drawn from genA at time 0. -/
def helloState : State :=
  ⟨[⟨1, "AAAAAAAA", "", "", "hello", 0, 60, false, true, FType.text⟩], [], 2⟩

/-- The row produced by the concrete save_file of the round-trip witness. -/
def c4wEntry : Entry :=
  ⟨1, "AAAAAAAA", "0_t_a", "a", "", 0, 60, false, false, FType.file⟩

/-- The store right after that save_file. -/
def c4wState : State := ⟨[c4wEntry], [("0_t_a", [7])], 2⟩

/-- The store right after save_text of x with a negative ttl on an empty
store: a row whose expiry is already in the past. -/
def pastExpiryState : State :=
  ⟨[⟨1, "AAAAAAAA", "", "", "x", 0, -10, false, true, FType.text⟩], [], 2⟩

theorem codeUsed_eq_false (s : State) (c : String) (h : codeUsed s c = false) :
    ∀ e ∈ s.files, e.code ≠ c := by
  intro e he
  rw [codeUsed, List.any_eq_false] at h
  simpa using h e he

theorem pickCodeAux_fresh (gen : Nat → String) (s : State) :
    ∀ fuel i c, pickCodeAux gen s fuel i = some c → codeUsed s c = false := by
  intro fuel
  induction fuel with
  | zero => intro i c h; simp [pickCodeAux] at h
  | succ n ih =>
    intro i c h
    by_cases hc : codeUsed s (gen i) = true
    · rw [pickCodeAux, if_pos hc] at h
      exact ih (i + 1) c h
    · rw [pickCodeAux, if_neg hc] at h
      cases h
      exact Bool.eq_false_iff.mpr hc

theorem pickCode_fresh (gen : Nat → String) (fuel : Nat) (s : State) (c : String)
    (h : pickCode gen fuel s = some c) : ∀ e ∈ s.files, e.code ≠ c :=
  codeUsed_eq_false s c (pickCodeAux_fresh gen s fuel 0 c h)

theorem mem_cleanup_files (fails : String → Bool) (now : Int) (s : State)
    (e : Entry) :
    e ∈ (cleanup_expired fails now s).files ↔ e ∈ s.files ∧ now < e.expires_at := by
  simp [cleanup_expired, List.mem_filter, Int.not_le]

theorem cleanup_files_eq (fails : String → Bool) (now : Int) (s : State) :
    (cleanup_expired fails now s).files =
      s.files.filter (fun e => decide (¬ e.expires_at ≤ now)) := rfl

theorem cleanup_id (fails : String → Bool) (now : Int) (s : State)
    (h : ∀ e ∈ s.files, now < e.expires_at) : cleanup_expired fails now s = s := by
  have hexp : s.files.filter (fun e => decide (e.expires_at ≤ now)) = [] := by
    rw [List.filter_eq_nil_iff]
    intro e he
    simpa using Int.not_le.mpr (h e he)
  have hkeep : s.files.filter (fun e => decide (¬ e.expires_at ≤ now)) = s.files := by
    rw [List.filter_eq_self]
    intro e he
    simpa using Int.not_le.mpr (h e he)
  cases s with
  | mk fl bl ni => simp only [cleanup_expired] at *; rw [hexp, hkeep]; rfl

theorem lookupBlob_removeBlob (k k2 : String) (h : k ≠ k2) :
    ∀ bs, lookupBlob (removeBlob k2 bs) k = lookupBlob bs k := by
  intro bs
  induction bs with
  | nil => rfl
  | cons p t ih =>
    by_cases hp : p.fst = k2
    · have h1 : removeBlob k2 (p :: t) = removeBlob k2 t := by
        simp [removeBlob, List.filter, hp]
      have h2 : lookupBlob (p :: t) k = lookupBlob t k := by
        have : ¬ p.fst = k := by rw [hp]; exact fun hk => h hk.symm
        simp [lookupBlob, List.find?, this]
      rw [h1, ih, h2]
    · have h1 : removeBlob k2 (p :: t) = p :: removeBlob k2 t := by
        simp [removeBlob, List.filter, hp]
      by_cases hk : p.fst = k
      · rw [h1]; simp [lookupBlob, List.find?, hk]
      · rw [h1]
        have e1 : lookupBlob (p :: removeBlob k2 t) k = lookupBlob (removeBlob k2 t) k := by
          simp [lookupBlob, List.find?, hk]
        have e2 : lookupBlob (p :: t) k = lookupBlob t k := by
          simp [lookupBlob, List.find?, hk]
        rw [e1, e2, ih]

theorem lookupBlob_cleanupFold (k : String) (fails : String → Bool) :
    ∀ (l : List Entry) (bs : List (String × List Nat)),
      (∀ e ∈ l, e.saved_name ≠ k) →
      lookupBlob
        (l.foldl
          (fun bs2 e =>
            if e.ftype = FType.file ∧ fails e.saved_name = false then
              removeBlob e.saved_name bs2
            else bs2)
          bs) k = lookupBlob bs k := by
  intro l
  induction l with
  | nil => intro bs _; rfl
  | cons e t ih =>
    intro bs h
    have he : e.saved_name ≠ k := h e (by simp)
    have ht : ∀ x ∈ t, x.saved_name ≠ k := fun x hx => h x (by simp [hx])
    simp only [List.foldl_cons]
    by_cases hc : e.ftype = FType.file ∧ fails e.saved_name = false
    · rw [if_pos hc, ih _ ht, lookupBlob_removeBlob k e.saved_name (Ne.symm he)]
    · rw [if_neg hc, ih _ ht]

theorem lookupBlob_putBlob (k : String) (v : List Nat)
    (bs : List (String × List Nat)) : lookupBlob (putBlob k v bs) k = some v := by
  simp [putBlob, lookupBlob, List.find?]

theorem find_first_unique {α : Type} {p : α → Bool} {l : List α} {a : α}
    (ha : a ∈ l) (hpa : p a = true) (hu : ∀ x ∈ l, p x = true → x = a) :
    l.find? p = some a := by
  induction l with
  | nil => cases ha
  | cons b t ih =>
    by_cases hb : p b = true
    · have hba : b = a := hu b (by simp) hb
      subst hba
      simp [List.find?, hb]
    · have hbf : p b = false := Bool.eq_false_iff.mpr hb
      rw [List.find?, hbf]
      have hat : a ∈ t := by
        rcases List.mem_cons.mp ha with h1 | h1
        · exact absurd (h1 ▸ hpa) hb
        · exact h1
      exact ih hat (fun x hx hpx => hu x (by simp [hx]) hpx)

theorem cleanup_sub (fails : String → Bool) (now : Int) (s : State) (e : Entry)
    (h : e ∈ (cleanup_expired fails now s).files) : e ∈ s.files :=
  ((mem_cleanup_files fails now s e).mp h).1

theorem cleanup_live (fails : String → Bool) (now : Int) (s : State) (e : Entry)
    (h : e ∈ (cleanup_expired fails now s).files) : now < e.expires_at :=
  ((mem_cleanup_files fails now s e).mp h).2

theorem save_file_ok (gen : Nat → String) (fuel : Nat) (now : Int)
    (fn : String) (content : List Nat) (tok : String) (expS : Int) (ot : Bool)
    (s : State) (code : String) (expAt : Int) (s1 : State)
    (h : save_file gen fuel now fn content tok expS ot s =
      Except.ok (code, expAt, s1)) :
    pickCode gen fuel s = some code ∧ expAt = now + expS ∧
      content.length ≤ MAX_FILE_SIZE_BYTES ∧
      s1 = ⟨s.files ++ [mkFileEntry s now fn tok expS ot code],
        putBlob (savedNameOf now tok fn) content s.blobs, s.next_id + 1⟩ := by
  rw [save_file] at h
  by_cases hsz : MAX_FILE_SIZE_BYTES < content.length
  · rw [if_pos hsz] at h; cases h
  · rw [if_neg hsz] at h
    cases hp : pickCode gen fuel s with
    | none => rw [hp] at h; cases h
    | some c =>
      rw [hp] at h
      injection h with h2
      injection h2 with hc h3
      injection h3 with he hs
      subst hc
      subst he
      subst hs
      exact ⟨rfl, rfl, Nat.le_of_not_lt hsz, rfl⟩

theorem save_text_ok (gen : Nat → String) (fuel : Nat) (now : Int)
    (text : String) (expS : Int) (ot : Bool) (s : State) (code : String)
    (expAt : Int) (s1 : State)
    (h : save_text gen fuel now text expS ot s = Except.ok (code, expAt, s1)) :
    pickCode gen fuel s = some code ∧ expAt = now + expS ∧
      s1 = ⟨s.files ++ [mkTextEntry s now text expS ot code],
        s.blobs, s.next_id + 1⟩ := by
  rw [save_text] at h
  cases hp : pickCode gen fuel s with
  | none => rw [hp] at h; cases h
  | some c =>
    rw [hp] at h
    injection h with h2
    injection h2 with hc h3
    injection h3 with he hs
    subst hc
    subst he
    subst hs
    exact ⟨rfl, rfl, rfl⟩

theorem code_of_updDl (rid : Nat) (e : Entry) :
    (if e.id = rid then setDl e else e).code = e.code := by
  by_cases h : e.id = rid <;> simp [h, setDl]

theorem saved_name_of_updDl (rid : Nat) (e : Entry) :
    (if e.id = rid then setDl e else e).saved_name = e.saved_name := by
  by_cases h : e.id = rid <;> simp [h, setDl]

theorem wf_filter (s : State) (p : Entry → Bool) (h : wfCodes s) :
    ((s.files.filter p).map Entry.code).Nodup :=
  List.Nodup.sublist (List.Sublist.map Entry.code (List.filter_sublist s.files)) h

theorem wf_insert (s : State) (e : Entry) (h : wfCodes s)
    (hf : ∀ x ∈ s.files, x.code ≠ e.code) :
    ((s.files ++ [e]).map Entry.code).Nodup := by
  rw [List.map_append, List.nodup_append]
  refine ⟨h, by simp, ?_⟩
  intro c hc
  simp only [List.mem_map] at hc
  obtain ⟨x, hx, hxc⟩ := hc
  simp only [List.map_cons, List.map_nil, List.mem_singleton]
  rw [← hxc]
  exact hf x hx

theorem codes_map_updDl (l : List Entry) (rid : Nat) :
    ((l.map (fun e => if e.id = rid then setDl e else e)).map Entry.code) =
      l.map Entry.code := by
  rw [List.map_map]
  exact List.map_congr_left (fun e _ => code_of_updDl rid e)

theorem wf_mark (rid : Nat) (sn : String) (ot : Bool) (ft : FType) (s : State)
    (h : wfCodes s) : wfCodes (mark_downloaded_and_maybe_delete rid sn ot ft s) := by
  rw [mark_downloaded_and_maybe_delete]
  by_cases hot : ot = true
  · rw [if_pos hot]
    refine List.Nodup.sublist
      (List.Sublist.map Entry.code (List.filter_sublist _)) ?_
    rw [codes_map_updDl]
    exact h
  · rw [if_neg hot]
    show ((s.files.map _).map Entry.code).Nodup
    rw [codes_map_updDl]
    exact h

theorem wf_cleanup (fails : String → Bool) (now : Int) (s : State)
    (h : wfCodes s) : wfCodes (cleanup_expired fails now s) :=
  wf_filter s _ h

theorem wf_fetch (fails : String → Bool) (now : Int) (ci : String) (s : State)
    (h : wfCodes s) : wfCodes (fetchDownload fails now ci s).snd := by
  rw [fetchDownload]
  by_cases h0 : pyStrip ci = ""
  · rw [if_pos h0]; exact h
  · rw [if_neg h0]
    have h1 : wfCodes (cleanup_expired fails now s) := wf_cleanup fails now s h
    cases hr : get_record_by_code (cleanup_expired fails now s) (pyStrip ci) with
    | none => simpa [hr] using h1
    | some r =>
      simp only [hr]
      by_cases he : r.expires_at ≤ now
      · rw [if_pos he]; exact h1
      · rw [if_neg he]
        by_cases hd : r.one_time = true ∧ r.downloaded = true
        · rw [if_pos hd]; exact h1
        · rw [if_neg hd]
          cases hft : r.ftype with
          | file =>
            cases hb : lookupBlob (cleanup_expired fails now s).blobs r.saved_name with
            | none => exact h1
            | some data => exact wf_mark r.id r.saved_name r.one_time FType.file _ h1
          | text => exact h1

theorem wf_delete (fid : Nat) (s : State) (h : wfCodes s) :
    wfCodes (delete_file fid s).snd := by
  rw [delete_file]
  cases hf : s.files.find? (fun e => decide (e.id = fid)) with
  | none => exact h
  | some e => exact wf_filter s _ h

theorem wf_applyOp (s : State) (op : Op) (h : wfCodes s) : wfCodes (applyOp s op) := by
  cases op with
  | opSaveFile gen fuel now fn content tok expS ot =>
    rw [applyOp]
    cases hs : save_file gen fuel now fn content tok expS ot s with
    | error e => exact h
    | ok v =>
      obtain ⟨code, expAt, s1⟩ := v
      obtain ⟨hp, _, _, hs1⟩ := save_file_ok gen fuel now fn content tok expS ot
        s code expAt s1 hs
      rw [hs1]
      exact wf_insert s _ h (by
        intro x hx
        exact pickCode_fresh gen fuel s code hp x hx)
  | opSaveText gen fuel now text expS ot =>
    rw [applyOp]
    cases hs : save_text gen fuel now text expS ot s with
    | error e => exact h
    | ok v =>
      obtain ⟨code, expAt, s1⟩ := v
      obtain ⟨hp, _, hs1⟩ := save_text_ok gen fuel now text expS ot s code expAt s1 hs
      rw [hs1]
      exact wf_insert s _ h (by
        intro x hx
        exact pickCode_fresh gen fuel s code hp x hx)
  | opCleanup fails now => exact wf_cleanup fails now s h
  | opFetch fails now ci => exact wf_fetch fails now ci s h
  | opAdminDelete fid => exact wf_delete fid s h

theorem wf_foldl (ops : List Op) : ∀ s, wfCodes s → wfCodes (ops.foldl applyOp s) := by
  induction ops with
  | nil => intro s h; exact h
  | cons op rest ih =>
    intro s h
    rw [List.foldl_cons]
    exact ih (applyOp s op) (wf_applyOp s op h)

theorem wf_runOps (ops : List Op) : wfCodes (runOps ops) :=
  wf_foldl ops emptyState (by simp [wfCodes, emptyState])

theorem fetch_none_of_all_expired (fails : String → Bool) (now : Int)
    (s : State) (q : String) (hq : pyStrip q ≠ "")
    (h : ∀ e ∈ s.files, e.code = pyStrip q → e.expires_at ≤ now) :
    (fetchDownload fails now q s).fst = FetchResult.invalidOrExpired := by
  rw [fetchDownload, if_neg hq]
  have hnone : get_record_by_code (cleanup_expired fails now s) (pyStrip q) = none := by
    rw [get_record_by_code, List.find?_eq_none]
    intro e he
    have h1 := cleanup_sub fails now s e he
    have h2 := cleanup_live fails now s e he
    intro hc
    have hc2 : e.code = pyStrip q := by simpa using hc
    exact absurd (h e h1 hc2) (Int.not_le.mpr h2)
  simp only [hnone]

theorem cleanup_blobs_eq (fails : String → Bool) (now : Int) (s : State) :
    (cleanup_expired fails now s).blobs =
      (s.files.filter (fun e => decide (e.expires_at ≤ now))).foldl
        (fun bs e =>
          if e.ftype = FType.file ∧ fails e.saved_name = false then
            removeBlob e.saved_name bs
          else bs)
        s.blobs := rfl

theorem rowInv_cleanup (fails : String → Bool) (now : Int) (er : Entry)
    (content : List Nat) (s : State) (hinv : RowInv er content s)
    (hex : now < er.expires_at) :
    RowInv er content (cleanup_expired fails now s) := by
  obtain ⟨hmem, huniq, hfile⟩ := hinv
  refine ⟨(mem_cleanup_files fails now s er).mpr ⟨hmem, hex⟩, ?_, ?_⟩
  · intro x hx
    exact huniq x (cleanup_sub fails now s x hx)
  · intro hft
    obtain ⟨hsn, hblob⟩ := hfile hft
    refine ⟨fun x hx => hsn x (cleanup_sub fails now s x hx), ?_⟩
    rw [cleanup_blobs_eq]
    rw [lookupBlob_cleanupFold er.saved_name fails _ s.blobs (by
      intro e he
      rw [List.mem_filter] at he
      intro hsne
      have heq : e = er := hsn e he.1 hsne
      have hle : e.expires_at ≤ now := by simpa using he.2
      rw [heq] at hle
      exact absurd hle (Int.not_le.mpr hex))]
    exact hblob

theorem get_record_rowInv (er : Entry) (content : List Nat) (s : State)
    (hinv : RowInv er content s) : get_record_by_code s er.code = some er :=
  find_first_unique hinv.1 (by simp)
    (fun x hx hpx => hinv.2.1 x hx (by simpa using hpx))

theorem setDl_fields (e : Entry) :
    (setDl e).id = e.id ∧ (setDl e).code = e.code ∧
      (setDl e).saved_name = e.saved_name ∧
      (setDl e).original_name = e.original_name ∧
      (setDl e).text_content = e.text_content ∧
      (setDl e).expires_at = e.expires_at ∧
      (setDl e).one_time = e.one_time ∧ (setDl e).ftype = e.ftype := by
  simp [setDl]

theorem rowInv_mark (er : Entry) (content : List Nat) (s : State)
    (hinv : RowInv er content s) (hot : er.one_time = false) :
    RowInv (setDl er) content
      (mark_downloaded_and_maybe_delete er.id er.saved_name er.one_time
        FType.file s) := by
  obtain ⟨hmem, huniq, hfile⟩ := hinv
  rw [mark_downloaded_and_maybe_delete, hot]
  rw [if_neg (by simp)]
  refine ⟨?_, ?_, ?_⟩
  · have h1 := List.mem_map_of_mem
      (fun e => if e.id = er.id then setDl e else e) hmem
    simpa using h1
  · intro x hx
    rw [List.mem_map] at hx
    obtain ⟨y, hy, hxy⟩ := hx
    intro hxc
    have hyc : y.code = er.code := by
      rw [← hxy] at hxc
      rw [code_of_updDl er.id y] at hxc
      simpa [setDl] using hxc
    have hye : y = er := huniq y hy hyc
    rw [← hxy, hye]
    simp
  · intro hft
    have hft2 : er.ftype = FType.file := by simpa [setDl] using hft
    obtain ⟨hsn, hblob⟩ := hfile hft2
    constructor
    · intro x hx
      rw [List.mem_map] at hx
      obtain ⟨y, hy, hxy⟩ := hx
      intro hxs
      have hys : y.saved_name = er.saved_name := by
        rw [← hxy] at hxs
        rw [saved_name_of_updDl er.id y] at hxs
        simpa [setDl] using hxs
      have hye : y = er := hsn y hy hys
      rw [← hxy, hye]
      simp
    · show lookupBlob s.blobs (setDl er).saved_name = some content
      rw [(setDl_fields er).2.2.1]
      exact hblob

theorem afterFetch_code (er : Entry) : (afterFetch er).code = er.code := by
  cases h : er.ftype <;> simp [afterFetch, h, setDl]

theorem afterFetch_one_time (er : Entry) :
    (afterFetch er).one_time = er.one_time := by
  cases h : er.ftype <;> simp [afterFetch, h, setDl]

theorem afterFetch_expires_at (er : Entry) :
    (afterFetch er).expires_at = er.expires_at := by
  cases h : er.ftype <;> simp [afterFetch, h, setDl]

theorem expectedResult_afterFetch (er : Entry) (content : List Nat) :
    expectedResult (afterFetch er) content = expectedResult er content := by
  cases h : er.ftype <;> simp [afterFetch, expectedResult, h, setDl]

theorem fetch_step (fails : String → Bool) (t : Int) (er : Entry)
    (content : List Nat) (s : State) (hinv : RowInv er content s)
    (hot : er.one_time = false) (hex : t < er.expires_at)
    (htrim : pyStrip er.code = er.code) (hne : er.code ≠ "") :
    (fetchDownload fails t er.code s).fst = expectedResult er content ∧
      RowInv (afterFetch er) content (fetchDownload fails t er.code s).snd := by
  have hq : pyStrip er.code ≠ "" := by rw [htrim]; exact hne
  have hinv1 : RowInv er content (cleanup_expired fails t s) :=
    rowInv_cleanup fails t er content s hinv hex
  have hrec : get_record_by_code (cleanup_expired fails t s) er.code = some er :=
    get_record_rowInv er content _ hinv1
  rw [fetchDownload, if_neg hq]
  simp only [htrim, hrec]
  rw [if_neg (Int.not_le.mpr hex)]
  rw [if_neg (by rw [hot]; rintro ⟨hh, _⟩; cases hh)]
  cases hft : er.ftype with
  | file =>
    obtain ⟨hsn, hblob⟩ := hinv1.2.2 hft
    simp only [hft, hblob]
    constructor
    · simp [expectedResult, hft]
    · have h2 := rowInv_mark er content (cleanup_expired fails t s) hinv1 hot
      simp only [afterFetch, hft]
      exact h2
  | text =>
    simp only [hft]
    constructor
    · simp [expectedResult, hft]
    · simp only [afterFetch, hft]
      exact hinv1

theorem runFetches_rowInv (fails : String → Bool) (content : List Nat) :
    ∀ (ts : List Int) (er : Entry) (s : State), RowInv er content s →
      er.one_time = false → pyStrip er.code = er.code → er.code ≠ "" →
      (∀ t ∈ ts, t < er.expires_at) →
      (runFetches fails er.code ts s).fst =
        ts.map (fun _ => expectedResult er content) := by
  intro ts
  induction ts with
  | nil => intro er s _ _ _ _ _; rfl
  | cons t rest ih =>
    intro er s hinv hot htrim hne hts
    obtain ⟨h1, h2⟩ := fetch_step fails t er content s hinv hot
      (hts t (by simp)) htrim hne
    have hcode := afterFetch_code er
    have h3 := ih (afterFetch er) (fetchDownload fails t er.code s).snd h2
      (by rw [afterFetch_one_time]; exact hot)
      (by rw [hcode]; exact htrim)
      (by rw [hcode]; exact hne)
      (by intro u hu; rw [afterFetch_expires_at]; exact hts u (by simp [hu]))
    rw [runFetches]
    simp only [List.map_cons]
    rw [hcode] at h3
    rw [expectedResult_afterFetch] at h3
    simp only [h1, h3]

theorem fetch_cases (fails : String → Bool) (now : Int) (q : String) (s : State)
    (hlive : ∀ e ∈ s.files, now < e.expires_at) :
    (fetchDownload fails now q s).snd = s ∨
      isFailureResult (fetchDownload fails now q s).fst = false := by
  have hcl : cleanup_expired fails now s = s := cleanup_id fails now s hlive
  rw [fetchDownload]
  by_cases h0 : pyStrip q = ""
  · rw [if_pos h0]; exact Or.inl rfl
  · rw [if_neg h0]
    simp only [hcl]
    cases hr : get_record_by_code s (pyStrip q) with
    | none => exact Or.inl rfl
    | some r =>
      simp only [hr]
      by_cases he : r.expires_at ≤ now
      · rw [if_pos he]; exact Or.inl rfl
      · rw [if_neg he]
        by_cases hd : r.one_time = true ∧ r.downloaded = true
        · rw [if_pos hd]; exact Or.inl rfl
        · rw [if_neg hd]
          cases hft : r.ftype with
          | file =>
            cases hb : lookupBlob s.blobs r.saved_name with
            | none => exact Or.inl rfl
            | some data => exact Or.inr rfl
          | text => exact Or.inr rfl

/-- Claim C1, evaluated at the failing input.  The claim says a one-time
entry redeemed successfully before expiry yields the payload and then
ceases to exist, a second redemption giving NotFoundOrExpired.  For text
entries the code violates this: the text is rendered, but line 278 of
src/app.py then raises NameError (the f-string for the download file name
reads the undefined global named code instead of code_input), so
mark_downloaded_and_maybe_delete on line 280 never runs.  Concretely:
uploading the one-time text hello with ttl 60 and redeeming its code at
time 10 surfaces hello yet leaves the store unchanged, and a second
redemption at time 20 surfaces hello again instead of the
invalid-or-expired outcome. -/
theorem c1_one_time_text_not_consumed :
    save_text genA 1 0 "hello" 60 true emptyState =
      Except.ok ("AAAAAAAA", 60, helloState) ∧
    fetchDownload fz 10 "AAAAAAAA" helloState =
      (FetchResult.textShownThenError "hello", helloState) ∧
    fetchDownload fz 20 "AAAAAAAA" helloState =
      (FetchResult.textShownThenError "hello", helloState) ∧
    (fetchDownload fz 20 "AAAAAAAA" helloState).fst ≠
      FetchResult.invalidOrExpired ∧
    helloState.files ≠ [] :=
  ⟨rfl, rfl, rfl, by decide, by decide⟩

/-- Claim C2: after any sequence of operations starting from the fresh
store (in particular after any sequence of uploads), no two live rows
(rows whose expires_at lies in the future) share a code: the collision
retry loop of create only ever inserts a code unused in the whole
catalog. -/
theorem c2_live_codes_unique (ops : List Op) (now : Int) :
    (((runOps ops).files.filter
        (fun e => decide (now < e.expires_at))).map Entry.code).Nodup :=
  wf_filter (runOps ops) _ (wf_runOps ops)

/-- Claim C3: the expiry sweep leaves no row with expires_at at or before
now (first conjunct: it runs at process start, line 163, and immediately
before every redemption attempt, line 253, and after it no expired row is
visible), and a code all of whose rows are expired at redemption time is
not redeemable, the redemption returning the invalid-or-expired outcome
(second conjunct).  In particular an entry with expires_at equal to T+1,
redeemable at T, is no longer redeemable at T+2, since its expiry is at
or before T+2. -/
theorem c3_expired_never_redeemable :
    (∀ (fails : String → Bool) (now : Int) (s : State) (e : Entry),
      e ∈ (cleanup_expired fails now s).files → now < e.expires_at) ∧
    (∀ (fails : String → Bool) (now : Int) (s : State) (q : String),
      pyStrip q ≠ "" → (∀ e ∈ s.files, e.code = pyStrip q → e.expires_at ≤ now) →
      (fetchDownload fails now q s).fst = FetchResult.invalidOrExpired) :=
  ⟨fun fails now s e h => cleanup_live fails now s e h,
   fun fails now s q hq h => fetch_none_of_all_expired fails now s q hq h⟩

/-- Witness for C3: in the concrete store holding one row with code
AAAAAAAA expired at 5, redeeming AAAAAAAA at time 10 yields the
invalid-or-expired outcome. -/
theorem c3_witness :
    (fetchDownload fz 10 "AAAAAAAA" sExpiredRow).fst =
      FetchResult.invalidOrExpired :=
  c3_expired_never_redeemable.2 fz 10 sExpiredRow "AAAAAAAA" (by decide) (by decide)

/-- Claim C4: round-trip for non-one-time entries.  First conjunct: a
file payload P uploaded with one_time false is returned bit-identically by
every later redemption of the issued code performed before expiry, however
many times (the list ts of redemption instants is arbitrary), under the
real-system side conditions that the issued code is strip-invariant and
nonempty (generate_code emits alphanumeric strings) and that no existing
row already uses the freshly generated blob name (the timestamp plus
token_hex component).  Second conjunct: the same for a text payload, whose
every redemption renders the stored text (each such redemption then hits
the NameError of C1 after rendering, which touches no state, so
redeemability is again unbounded). -/
theorem c4_round_trip :
    (∀ (fails : String → Bool) (gen : Nat → String) (fuel : Nat) (now : Int)
      (fn : String) (content : List Nat) (tok : String) (expS : Int) (s : State)
      (code : String) (expAt : Int) (s1 : State) (ts : List Int),
      save_file gen fuel now fn content tok expS false s =
        Except.ok (code, expAt, s1) →
      (∀ x ∈ s.files, x.saved_name ≠ savedNameOf now tok fn) →
      pyStrip code = code → code ≠ "" →
      (∀ t ∈ ts, t < expAt) →
      (runFetches fails code ts s1).fst =
        ts.map (fun _ => FetchResult.fileReady content fn)) ∧
    (∀ (fails : String → Bool) (gen : Nat → String) (fuel : Nat) (now : Int)
      (text : String) (expS : Int) (s : State)
      (code : String) (expAt : Int) (s1 : State) (ts : List Int),
      save_text gen fuel now text expS false s = Except.ok (code, expAt, s1) →
      pyStrip code = code → code ≠ "" →
      (∀ t ∈ ts, t < expAt) →
      (runFetches fails code ts s1).fst =
        ts.map (fun _ => FetchResult.textShownThenError text)) := by
  constructor
  · intro fails gen fuel now fn content tok expS s code expAt s1 ts
      hsave hsn htrim hne hts
    obtain ⟨hp, hexp, hsz, hs1⟩ :=
      save_file_ok gen fuel now fn content tok expS false s code expAt s1 hsave
    subst hexp
    subst hs1
    have hfresh := pickCode_fresh gen fuel s code hp
    have hinv : RowInv (mkFileEntry s now fn tok expS false code) content
        ⟨s.files ++ [mkFileEntry s now fn tok expS false code],
          putBlob (savedNameOf now tok fn) content s.blobs, s.next_id + 1⟩ := by
      refine ⟨by simp, ?_, ?_⟩
      · intro x hx hxc
        rcases List.mem_append.mp hx with h1 | h1
        · exact absurd hxc (hfresh x h1)
        · simpa using h1
      · intro _
        refine ⟨?_, lookupBlob_putBlob _ content s.blobs⟩
        intro x hx hxs
        rcases List.mem_append.mp hx with h1 | h1
        · exact absurd hxs (hsn x h1)
        · simpa using h1
    exact runFetches_rowInv fails content ts
      (mkFileEntry s now fn tok expS false code) _ hinv rfl htrim hne hts
  · intro fails gen fuel now text expS s code expAt s1 ts hsave htrim hne hts
    obtain ⟨hp, hexp, hs1⟩ :=
      save_text_ok gen fuel now text expS false s code expAt s1 hsave
    subst hexp
    subst hs1
    have hfresh := pickCode_fresh gen fuel s code hp
    have hinv : RowInv (mkTextEntry s now text expS false code) []
        ⟨s.files ++ [mkTextEntry s now text expS false code],
          s.blobs, s.next_id + 1⟩ := by
      refine ⟨by simp, ?_, ?_⟩
      · intro x hx hxc
        rcases List.mem_append.mp hx with h1 | h1
        · exact absurd hxc (hfresh x h1)
        · simpa using h1
      · intro hft
        cases hft
    exact runFetches_rowInv fails [] ts
      (mkTextEntry s now text expS false code) _ hinv rfl htrim hne hts

/-- Witness for C4: uploading the two-byte-free file a with content the
single byte 7 and ttl 60 into the empty store and redeeming its code at
times 1 and 2 yields the byte 7 both times. -/
theorem c4_witness :
    (runFetches fz "AAAAAAAA" [1, 2] c4wState).fst =
      [FetchResult.fileReady [7] "a", FetchResult.fileReady [7] "a"] :=
  c4_round_trip.1 fz genA 1 0 "a" [7] "t" 60 emptyState "AAAAAAAA" 60 c4wState
    [1, 2] rfl (by simp [emptyState]) rfl (by decide) (by decide)

/-- Counterexample to claim C5 as stated: failed redemptions do not all
surface one single generic outcome.  In a store holding a live file row
with code AAAA1111 whose backing blob is absent, redeeming AAAA1111
surfaces the distinct file-not-found message, while redeeming the same
code against the empty store surfaces the invalid-or-expired message;
the two outcomes differ, so the cause is distinguishable. -/
theorem c5_counterexample :
    (fetchDownload fz 0 "AAAA1111" liveNoBlobState).fst =
      FetchResult.fileNotFound ∧
    (fetchDownload fz 0 "AAAA1111" emptyState).fst =
      FetchResult.invalidOrExpired ∧
    FetchResult.fileNotFound ≠ FetchResult.invalidOrExpired :=
  ⟨rfl, rfl, by decide⟩

/-- Claim C5 as amended: redemptions of never-existing codes and of codes
whose rows are all expired surface the same generic invalid-or-expired
outcome (expired rows are swept before lookup, so those two causes are
indistinguishable), but a redemption that finds a live, unconsumed file
row whose backing blob is absent surfaces the distinct file-not-found
outcome, different from the generic one.  (A consumed one-time row
likewise surfaces its own distinct already-downloaded outcome; see the
branch structure of fetchDownload.) -/
theorem c5_failure_outcomes (fails : String → Bool) (now : Int) (s : State)
    (q : String) (hq : pyStrip q ≠ "") :
    ((∀ e ∈ s.files, e.code = pyStrip q → e.expires_at ≤ now) →
      (fetchDownload fails now q s).fst = FetchResult.invalidOrExpired) ∧
    (∀ e, get_record_by_code (cleanup_expired fails now s) (pyStrip q) = some e →
      e.ftype = FType.file → (e.one_time = false ∨ e.downloaded = false) →
      lookupBlob (cleanup_expired fails now s).blobs e.saved_name = none →
      (fetchDownload fails now q s).fst = FetchResult.fileNotFound) ∧
    FetchResult.fileNotFound ≠ FetchResult.invalidOrExpired := by
  refine ⟨fun h => fetch_none_of_all_expired fails now s q hq h, ?_, by decide⟩
  intro e hrec hft hot hb
  have hmem : e ∈ (cleanup_expired fails now s).files :=
    List.mem_of_find?_eq_some hrec
  have hlive : now < e.expires_at := cleanup_live fails now s e hmem
  rw [fetchDownload, if_neg hq]
  simp only [hrec]
  rw [if_neg (Int.not_le.mpr hlive)]
  rw [if_neg (by
    rintro ⟨h1, h2⟩
    rcases hot with h3 | h3
    · rw [h3] at h1; cases h1
    · rw [h3] at h2; cases h2)]
  simp only [hft, hb]

/-- Witness for C5 as amended: in the concrete store holding a live file
row with code AAAA1111 and no backing blob, redeeming AAAA1111 at time 0
surfaces the file-not-found outcome. -/
theorem c5_witness :
    (fetchDownload fz 0 "AAAA1111" liveNoBlobState).fst =
      FetchResult.fileNotFound :=
  (c5_failure_outcomes fz 0 liveNoBlobState "AAAA1111" (by decide)).2.1
    eNoBlob rfl rfl (Or.inl rfl) rfl

/-- Counterexample to claim C6 as stated: an expiry in the past is not
rejected by the upload operation.  save_text called with ttl -10 at time 0
succeeds and inserts a catalog row whose expires_at is -10, already in the
past — a storage mutation, not a rejection before mutation. -/
theorem c6_counterexample :
    save_text genA 1 0 "x" (-10) true emptyState =
      Except.ok ("AAAAAAAA", -10, pastExpiryState) ∧
    pastExpiryState.files.length = 1 ∧ ((-10 : Int) < 0) :=
  ⟨rfl, rfl, by decide⟩

/-- Claim C6 as amended: an oversized file payload is rejected by
save_file before any storage mutation — the size check precedes the blob
write and the row insert, so the store is left exactly unchanged (first
two conjuncts) — and empty text is rejected by the Upload Text tab before
save_text is called (third conjunct).  A past expiry, by contrast, is not
validated by the save operations (see the counterexample); through the UI
it cannot arise, the ttl widget being bounded to 1 through 168 hours. -/
theorem c6_validation_before_mutation :
    (∀ (gen : Nat → String) (fuel : Nat) (now : Int) (fn : String)
      (content : List Nat) (tok : String) (expS : Int) (ot : Bool) (s : State),
      MAX_FILE_SIZE_BYTES < content.length →
      save_file gen fuel now fn content tok expS ot s =
        Except.error SaveError.sizeExceeded) ∧
    (∀ (gen : Nat → String) (fuel : Nat) (now : Int) (fn : String)
      (content : List Nat) (tok : String) (expS : Int) (ot : Bool) (s : State),
      MAX_FILE_SIZE_BYTES < content.length →
      applyOp s (Op.opSaveFile gen fuel now fn content tok expS ot) = s) ∧
    (∀ (gen : Nat → String) (fuel : Nat) (now : Int) (text : String)
      (expS : Int) (ot : Bool) (s : State),
      pyStrip text = "" →
      uploadTextTab gen fuel now text expS ot s =
        Except.error SaveError.emptyText) := by
  have hsz : ∀ (gen : Nat → String) (fuel : Nat) (now : Int) (fn : String)
      (content : List Nat) (tok : String) (expS : Int) (ot : Bool) (s : State),
      MAX_FILE_SIZE_BYTES < content.length →
      save_file gen fuel now fn content tok expS ot s =
        Except.error SaveError.sizeExceeded := by
    intro gen fuel now fn content tok expS ot s h
    rw [save_file, if_pos h]
  refine ⟨hsz, ?_, ?_⟩
  · intro gen fuel now fn content tok expS ot s h
    rw [applyOp]
    rw [hsz gen fuel now fn content tok expS ot s h]
  · intro gen fuel now text expS ot s h
    rw [uploadTextTab, if_pos h]

/-- Witness for C6 as amended: uploading a file one byte over the 50 MB
cap into the empty store leaves the store exactly empty. -/
theorem c6_witness :
    applyOp emptyState
      (Op.opSaveFile genA 1 0 "a" (List.replicate (MAX_FILE_SIZE_BYTES + 1) 0)
        "t" 60 true) = emptyState :=
  c6_validation_before_mutation.2.1 genA 1 0 "a"
    (List.replicate (MAX_FILE_SIZE_BYTES + 1) 0) "t" 60 true emptyState (by simp)

/-- Counterexample to claim C7 as stated: lookup is not case-normalized.
In a store holding a live row whose code is Ab12Cd34, redeeming the same
code spelled aB12cD34 — identical up to letter casing, as the third
conjunct records — yields the invalid-or-expired outcome, while the exact
spelling succeeds. -/
theorem c7_counterexample :
    (fetchDownload fz 0 "aB12cD34" mixedCaseState).fst =
      FetchResult.invalidOrExpired ∧
    (fetchDownload fz 0 "Ab12Cd34" mixedCaseState).fst =
      FetchResult.textShownThenError "hi" ∧
    "aB12cD34".toList.map Char.toLower = "Ab12Cd34".toList.map Char.toLower :=
  ⟨rfl, rfl, by decide⟩

/-- Claim C7 as amended: lookup by code is an exact, case-sensitive match
(SQLite BINARY collation): any row returned bears exactly the queried
string as its code, and whenever some row bears exactly that string the
lookup finds one. -/
theorem c7_exact_match (s : State) (q : String) :
    (∀ r, get_record_by_code s q = some r → r.code = q) ∧
    ((∃ e, e ∈ s.files ∧ e.code = q) → (get_record_by_code s q).isSome = true) := by
  constructor
  · intro r h
    have h2 := List.find?_some h
    simpa using h2
  · rintro ⟨e, he, hc⟩
    cases hfind : get_record_by_code s q with
    | some r => rfl
    | none =>
      rw [get_record_by_code, List.find?_eq_none] at hfind
      exact absurd (by simpa using hc) (hfind e he)

/-- Witness for C7 as amended: the stored code Ab12Cd34 in its exact
casing is found. -/
theorem c7_witness : (get_record_by_code mixedCaseState "Ab12Cd34").isSome = true :=
  (c7_exact_match mixedCaseState "Ab12Cd34").2
    ⟨eMixed, by simp [mixedCaseState], rfl⟩

/-- Claim C8: the expiry sweep deletes exactly the catalog rows with
expires_at at or before now, for every failure oracle — that is, even
when any subset of the individual blob unlinks fails or the blobs are
already missing, every expired row is still removed and every live row
is still retained, the sweep never aborting early. -/
theorem c8_sweep_unconditional (fails : String → Bool) (now : Int) (s : State) :
    (cleanup_expired fails now s).files =
      s.files.filter (fun e => decide (¬ e.expires_at ≤ now)) ∧
    ∀ e, e ∈ (cleanup_expired fails now s).files ↔
      e ∈ s.files ∧ now < e.expires_at :=
  ⟨cleanup_files_eq fails now s, fun e => mem_cleanup_files fails now s e⟩

/-- Counterexample to claim C9 as stated: a failed redemption can mutate
the store.  In a store holding one row expired at 5, redeeming its code
at time 10 fails with the invalid-or-expired outcome, yet the store after
the attempt differs from the store before it: the expiry sweep that runs
inside the redemption handler has deleted the row. -/
theorem c9_counterexample :
    (fetchDownload fz 10 "AAAAAAAA" sExpiredRow).fst =
      FetchResult.invalidOrExpired ∧
    (fetchDownload fz 10 "AAAAAAAA" sExpiredRow).snd ≠ sExpiredRow :=
  ⟨rfl, by decide⟩

/-- Claim C9 as amended: apart from the expiry sweep, a failed redemption
mutates nothing.  If the store contains no expired row at the attempt
time — so the sweep has nothing to delete — then every failing outcome
(unknown code, expired branch, one-time already downloaded, backing file
absent, empty input) leaves every catalog row, every downloaded flag and
every blob exactly as before the attempt. -/
theorem c9_failed_fetch_pure (fails : String → Bool) (now : Int) (q : String)
    (s : State) (hlive : ∀ e ∈ s.files, now < e.expires_at)
    (hfail : isFailureResult (fetchDownload fails now q s).fst = true) :
    (fetchDownload fails now q s).snd = s := by
  rcases fetch_cases fails now q s hlive with h | h
  · exact h
  · rw [hfail] at h
    cases h

/-- Witness for C9 as amended: redeeming the already-downloaded one-time
code CCCCCCCC in a store with no expired rows fails and returns the store
unchanged. -/
theorem c9_witness :
    (fetchDownload fz 1 "CCCCCCCC" consumedState).snd = consumedState :=
  c9_failed_fetch_pure fz 1 "CCCCCCCC" consumedState (by decide) (by decide)

/-- Claim C10: the collision check of create consults every catalog row,
live or expired — any code accepted by the retry loop differs from the
code of every existing row of the table, with no liveness restriction
(first conjunct) — and consequently at no reachable store do two catalog
rows, live or expired, share a code (second conjunct); a code can be
reissued only after its row is physically deleted. -/
theorem c10_collision_check_all_rows :
    (∀ (gen : Nat → String) (fuel : Nat) (s : State) (c : String),
      pickCode gen fuel s = some c → ∀ e ∈ s.files, e.code ≠ c) ∧
    (∀ ops : List Op, ((runOps ops).files.map Entry.code).Nodup) :=
  ⟨fun gen fuel s c h => pickCode_fresh gen fuel s c h,
   fun ops => wf_runOps ops⟩

/-- Witness for C10: against the store whose single row is the expired
entry with code AAAAAAAA, the retry loop fed a stream whose first draw is
AAAAAAAA and second draw is BBBBBBBB rejects the first draw — still held
by the expired, unswept row — and settles on BBBBBBBB, which differs from
the expired row's code. -/
theorem c10_witness : "AAAAAAAA" ≠ "BBBBBBBB" :=
  c10_collision_check_all_rows.1 genB 2 sExpiredRow "BBBBBBBB" rfl
    expiredEntryA (by simp [sExpiredRow])

end FileShare
